import Mathlib

/-!
# Verification of the MagmaPlayer playback/rendering core

Shallow embedding of the dual-video compositing player (`MagmaPlayer.js`).
Time values, durations and rates are modelled as rationals (the source uses
IEEE doubles; the claims under verification concern finite, exactly
representable quantities, and NaN/Infinity inputs are outside the model
except where the source explicitly branches on them, which is noted at the
relevant definition).  DOM/WebGL side effects are made explicit: every
operation returns the successor player state together with a list of
`Effect`s (event emissions, console logs, resource creation/release).
-/

namespace Magma

/-- Error codes from `ERROR_CODES` in `MagmaPlayer.js`. -/
inductive ErrorCode
  | invalidInput
  | videoLoadFailed
  | videoLoadTimeout
  | durationMismatch
  | webglInitFailed
  | canvasRemoved
deriving DecidableEq, Repr

/-- Events emitted through `this.emit(...)`.  `error`/`warning` carry the
`MagmaPlayerError` code when one is attached (`none` models a raw JS error
object without a code). -/
inductive Event
  | ready
  | play
  | pause
  | ended
  | timeupdate (t : ℚ)
  | seeked (t : ℚ)
  | error (code : Option ErrorCode)
  | warning (code : Option ErrorCode)
  | sizechange (w h : ℚ)
deriving DecidableEq, Repr

/-- Observable side effects of the player's operations. -/
inductive Effect
  | emit (e : Event)
  | consoleWarn
  | consoleError
  | createVideoElement
  | releaseTexture
  | releaseProgram
  | releaseBuffer
  | clearVideoSrc
  | timerCleared
  | observerDisconnected
deriving DecidableEq, Repr

/-- `true` exactly on an `emit` effect (of any event). -/
def isEmitEffect : Effect → Bool
  | Effect.emit _ => true
  | _ => false

/-- `true` exactly on an emission of a `warning` event. -/
def isWarningEmit : Effect → Bool
  | Effect.emit (Event.warning _) => true
  | _ => false

/-- `true` exactly on an emission of an `error` event. -/
def isErrorEmit : Effect → Bool
  | Effect.emit (Event.error _) => true
  | _ => false

/-- JS `a || b` on numbers, for finite values: `0` is the only falsy finite
number, so `a || b` is `b` when `a = 0` and `a` otherwise.  (NaN, also falsy,
is not representable in the rational model.) -/
def jsOrQ (a b : ℚ) : ℚ := if a = 0 then b else a

/-- Truncation toward zero, as JS division-based remainders use. -/
def truncQ (x : ℚ) : ℤ := if 0 ≤ x then ⌊x⌋ else ⌈x⌉

/-- JS `a % b` (remainder with the sign of the dividend). -/
def jsRem (a b : ℚ) : ℚ := a - b * truncQ (a / b)

/-- One HTMLVideoElement, restricted to the fields the player reads/writes. -/
structure VideoEl where
  currentTime : ℚ
  duration : ℚ
  videoWidth : ℕ
  videoHeight : ℕ
  readyState : ℕ
  paused : Bool
  seeking : Bool
  volume : ℚ
  playbackRate : ℚ
  loop : Bool
deriving DecidableEq, Repr

/-- The `MagmaPlayer` instance state (the fields the verified operations
touch).  `Option` fields are `none` exactly when the JS field is `null`.
`glAlive`/`ctxAlive` record whether `this.gl` / `this.ctx` are non-null;
the `*Alive` resource flags record whether the corresponding WebGL resource
field (`this.program`, textures, buffers) is non-null. -/
structure PlayerState where
  colorVideo : Option VideoEl
  maskVideo : Option VideoEl
  glAlive : Bool
  ctxAlive : Bool
  animationFrameId : Option ℕ
  seekTimeout : Option ℕ
  colorVideoLoadTimeout : Option ℕ
  maskVideoLoadTimeout : Option ℕ
  visibilityObserver : Bool
  sharedClockStart : Option ℚ
  isPlayingFlag : Bool
  isInitialized : Bool
  isSeeking : Bool
  isVisible : Bool
  lastFrameTime : ℚ
  frameInterval : ℚ
  lastTimeUpdate : ℚ
  readyEmitted : Bool
  readyCallbackCalled : Bool
  initializing : Bool
  initPromise : Option ℕ
  volume : ℚ
  playbackRate : ℚ
  loop : Bool
  repeatCount : ℤ
  repeatTarget : ℤ
  strictDuration : Bool
  useWebGL : Bool
  durationField : Option ℚ
  programAlive : Bool
  colorTextureAlive : Bool
  alphaTextureAlive : Bool
  positionBufferAlive : Bool
  uvBufferAlive : Bool
deriving DecidableEq, Repr

/-- `pause()`: clears `_isPlaying`, then inside a `try` block pauses both
videos and emits `"pause"`.  A null video reference raises a TypeError that
the `catch` turns into a console log, so the later statements (including the
`"pause"` emission) are skipped. -/
def pause (s : PlayerState) : PlayerState × List Effect :=
  let s1 := { s with isPlayingFlag := false }
  match s1.colorVideo with
  | none => (s1, [Effect.consoleError])
  | some cv =>
    let s2 := { s1 with colorVideo := some { cv with paused := true } }
    match s2.maskVideo with
    | none => (s2, [Effect.consoleError])
    | some mv =>
      ({ s2 with maskVideo := some { mv with paused := true } },
       [Effect.emit Event.pause])

/-- `getCurrentTime()`. -/
def getCurrentTime (s : PlayerState) : ℚ :=
  if s.isInitialized = false then 0
  else
    match s.colorVideo with
    | none => 0
    | some cv => jsOrQ cv.currentTime 0

/-- `getDuration()`: note that it reads `this.colorVideo.duration`, not the
`this.duration` field that `validateVideos` pins on a duration mismatch. -/
def getDuration (s : PlayerState) : ℚ :=
  if s.isInitialized = false then 0
  else
    match s.colorVideo with
    | none => 0
    | some cv => jsOrQ cv.duration 0

/-- `setVolume(volume)`: clamps to `[0, 1]` and forwards to both videos. -/
def setVolume (s : PlayerState) (volume : ℚ) : PlayerState :=
  let vol := max 0 (min 1 volume)
  { s with
      volume := vol
      colorVideo := s.colorVideo.map (fun cv => { cv with volume := vol })
      maskVideo := s.maskVideo.map (fun mv => { mv with volume := vol }) }

/-- `getVolume()`. -/
def getVolume (s : PlayerState) : ℚ := s.volume

/-- `setPlaybackRate(rate)`: clamps to `[0.25, 4.0]`, forwards to both
videos, and re-derives the shared clock epoch when initialized.  `now` is
the `performance.now()` reading. -/
def setPlaybackRate (s : PlayerState) (now rate : ℚ) : PlayerState :=
  let r := max (1/4) (min 4 rate)
  let s1 : PlayerState :=
    { s with
        playbackRate := r
        colorVideo := s.colorVideo.map (fun cv => { cv with playbackRate := r })
        maskVideo := s.maskVideo.map (fun mv => { mv with playbackRate := r }) }
  if s1.isInitialized then
    { s1 with sharedClockStart := some (now - getCurrentTime s1 * 1000 / r) }
  else s1

/-- `getPlaybackRate()`. -/
def getPlaybackRate (s : PlayerState) : ℚ := s.playbackRate

/-- Helper of `setRepeatCount`: assigns `loop` on whichever video elements
exist. -/
def setVideosLoop (s : PlayerState) (b : Bool) : PlayerState :=
  { s with
      colorVideo := s.colorVideo.map (fun cv => { cv with loop := b })
      maskVideo := s.maskVideo.map (fun mv => { mv with loop := b }) }

/-- `setRepeatCount(count)`: resets the iteration counter, computes
`Math.floor(count || 0)` and dispatches on `-1` / `0` / `1` / other.  The
`0` branch pauses first (source order: `repeatTarget`/`loop` assignment,
then `pause()` if playing, then the per-video `loop` assignments). -/
def setRepeatCount (s : PlayerState) (count : ℚ) : PlayerState × List Effect :=
  let s0 := { s with repeatCount := 0 }
  let target : ℤ := ⌊jsOrQ count 0⌋
  if target = -1 then
    (setVideosLoop { s0 with repeatTarget := -1, loop := true } true, [])
  else if target = 0 then
    let s1 := { s0 with repeatTarget := 0, loop := false }
    let p := if s1.isPlayingFlag then pause s1 else (s1, [])
    (setVideosLoop p.1 false, p.2)
  else if target = 1 then
    (setVideosLoop { s0 with repeatTarget := 1, loop := false } false, [])
  else
    (setVideosLoop { s0 with repeatTarget := target, loop := false } false, [])

/-- `getRepeatCount()`: returns `this.repeatTarget`. -/
def getRepeatCount (s : PlayerState) : ℤ := s.repeatTarget

/-- Outcome of `validateVideos()`: the possibly-updated state, the effects
produced on the way, and the error thrown (if any). -/
structure ValidateResult where
  state : PlayerState
  effects : List Effect
  thrown : Option ErrorCode
deriving DecidableEq, Repr

/-- `validateVideos()`:
1. dimension equality check — on mismatch, `console.warn` plus an `"error"`
   event emission, and execution continues;
2. duration compatibility — a difference above `0.1`s throws
   `DURATION_MISMATCH` in strict mode, otherwise logs a console warning and
   pins `this.duration` to the shorter duration (the source also requires
   both durations to be finite, which holds for every rational);
3. format check — zero natural dimensions throw `VIDEO_LOAD_FAILED`.
A null video reference would raise a TypeError (modelled as a thrown
`VIDEO_LOAD_FAILED`, the code that `_doInit`'s catch assigns such errors). -/
def validateVideos (s : PlayerState) : ValidateResult :=
  match s.colorVideo, s.maskVideo with
  | some cv, some mv =>
    let dimEff : List Effect :=
      if cv.videoWidth ≠ mv.videoWidth ∨ cv.videoHeight ≠ mv.videoHeight then
        [Effect.consoleWarn, Effect.emit (Event.error (some ErrorCode.invalidInput))]
      else []
    let colorDuration := jsOrQ cv.duration 0
    let maskDuration := jsOrQ mv.duration 0
    let durationDiff := |colorDuration - maskDuration|
    if durationDiff > 1/10 then
      if s.strictDuration then ⟨s, dimEff, some ErrorCode.durationMismatch⟩
      else
        let s1 : PlayerState :=
          { s with durationField := some (min colorDuration maskDuration) }
        if cv.videoWidth = 0 ∨ cv.videoHeight = 0 then
          ⟨s1, dimEff ++ [Effect.consoleWarn], some ErrorCode.videoLoadFailed⟩
        else if mv.videoWidth = 0 ∨ mv.videoHeight = 0 then
          ⟨s1, dimEff ++ [Effect.consoleWarn], some ErrorCode.videoLoadFailed⟩
        else ⟨s1, dimEff ++ [Effect.consoleWarn], none⟩
    else
      if cv.videoWidth = 0 ∨ cv.videoHeight = 0 then
        ⟨s, dimEff, some ErrorCode.videoLoadFailed⟩
      else if mv.videoWidth = 0 ∨ mv.videoHeight = 0 then
        ⟨s, dimEff, some ErrorCode.videoLoadFailed⟩
      else ⟨s, dimEff, none⟩
  | _, _ => ⟨s, [], some ErrorCode.videoLoadFailed⟩

/-- `((clockNow - this.sharedClockStart) / 1000) * this.playbackRate`. -/
def elapsedSeconds (now start rate : ℚ) : ℚ := (now - start) / 1000 * rate

/-- Result of the repeat-policy block of `renderLoop` (lines computing
`targetTime` and handling `repeatTarget`): either the tick ends playback
(`pause()` + `"ended"`), or it yields the clamped target position and the
updated repeat-iteration counter. -/
inductive TickOutcome
  | ended
  | frame (targetTime : ℚ) (newRepeatCount : ℤ)
deriving DecidableEq, Repr

/-- The `targetTime` computation of `renderLoop`: starts from the elapsed
shared-clock seconds, applies the repeat policy when the video duration is
finite and positive (`dur = none` models `Infinity`, i.e. both durations
falsy), and finally floors at `0`. -/
def computeTargetTime (elapsed : ℚ) (dur : Option ℚ)
    (repeatTarget repeatCount : ℤ) : TickOutcome :=
  match dur with
  | some d =>
    if 0 < d then
      if repeatTarget = -1 then
        TickOutcome.frame (max 0 (jsRem elapsed d)) repeatCount
      else if repeatTarget = 0 then TickOutcome.ended
      else if repeatTarget = 1 then
        if d ≤ min elapsed d then TickOutcome.ended
        else TickOutcome.frame (max 0 (min elapsed d)) repeatCount
      else
        -- `forwardElapsed = |elapsed|`, `currentCycle = ⌊forwardElapsed / d⌋`,
        -- `cycleTime = forwardElapsed % d`
        if repeatTarget ≤ ⌊|elapsed| / d⌋ then TickOutcome.ended
        else
          TickOutcome.frame (max 0 (jsRem |elapsed| d))
            (if repeatCount < ⌊|elapsed| / d⌋ then ⌊|elapsed| / d⌋ else repeatCount)
    else TickOutcome.frame (max 0 elapsed) repeatCount
  | none => TickOutcome.frame (max 0 elapsed) repeatCount

/-- Per-tick environment readings: the `performance.now()` value, whether
the canvas is still connected to the DOM, the canvas pixel width, and the
id handed out by `requestAnimationFrame`. -/
structure TickEnv where
  now : ℚ
  canvasConnected : Bool
  canvasWidth : ℕ
  freshFrameId : ℕ
deriving DecidableEq, Repr

/-- Result of one `renderLoop` tick. -/
structure TickResult where
  state : PlayerState
  effects : List Effect
  rendered : Bool
deriving DecidableEq, Repr

/-- One `renderLoop()` tick. Stages, in source order: re-arm the animation
frame; canvas-disconnection guard (pause + `"warning"` if playing); frame
throttling; playing/initialized/visible gate; readiness gate; seek gate;
shared-clock target computation and repeat policy; per-video sync to the
target and mutual sync (color video is master); throttled `timeupdate`;
backend render.  Both `performance.now()` reads of the tick are modelled by
the single `e.now`. -/
def renderLoop (s : PlayerState) (e : TickEnv) : TickResult :=
  let s := { s with animationFrameId := some e.freshFrameId }
  if e.canvasConnected = false then
    if s.isPlayingFlag then
      let p := pause s
      ⟨p.1, p.2 ++ [Effect.emit (Event.warning (some ErrorCode.canvasRemoved))], false⟩
    else ⟨s, [], false⟩
  else
    let elapsed := e.now - s.lastFrameTime
    if elapsed < s.frameInterval then ⟨s, [], false⟩
    else
      let s := { s with lastFrameTime := e.now - jsRem elapsed s.frameInterval }
      if s.isPlayingFlag = false ∨ s.isInitialized = false ∨ s.isVisible = false then
        ⟨s, [], false⟩
      else
        match s.colorVideo, s.maskVideo with
        | some cv, some mv =>
          if cv.readyState < 2 ∨ mv.readyState < 2 ∨ e.canvasWidth = 0 then
            ⟨s, [], false⟩
          else if s.isSeeking then ⟨s, [], false⟩
          else
            let clockStart := s.sharedClockStart.getD e.now
            let s := { s with sharedClockStart := some clockStart }
            let els := elapsedSeconds e.now clockStart s.playbackRate
            let dur : Option ℚ :=
              if cv.duration = 0 then
                if mv.duration = 0 then none else some mv.duration
              else some cv.duration
            match computeTargetTime els dur s.repeatTarget s.repeatCount with
            | TickOutcome.ended =>
              let p := pause s
              ⟨p.1, p.2 ++ [Effect.emit Event.ended], false⟩
            | TickOutcome.frame target newRC =>
              let resume := decide (s.repeatCount < newRC) &&
                s.isPlayingFlag && (cv.paused || mv.paused)
              let cv := if resume then { cv with paused := false } else cv
              let mv := if resume then { mv with paused := false } else mv
              let s := { s with repeatCount := newRC }
              let cv :=
                if |cv.currentTime - target| > 16/1000 ∧ cv.seeking = false then
                  { cv with currentTime := target }
                else cv
              let mv :=
                if |mv.currentTime - target| > 16/1000 ∧ mv.seeking = false then
                  { mv with currentTime := target }
                else mv
              let pinMask : Bool := decide (|cv.currentTime - mv.currentTime| > 16/1000) &&
                !cv.seeking && !mv.seeking
              let mv := if pinMask then { mv with currentTime := cv.currentTime } else mv
              let newStart := some (e.now - cv.currentTime * 1000 / s.playbackRate)
              let s :=
                if pinMask then { s with sharedClockStart := newStart } else s
              let s := { s with colorVideo := some cv, maskVideo := some mv }
              let doTU : Bool := decide (e.now - s.lastTimeUpdate ≥ 16)
              let s := if doTU then { s with lastTimeUpdate := e.now } else s
              let tuEff : List Effect :=
                if doTU then [Effect.emit (Event.timeupdate target)] else []
              if s.glAlive && !cv.seeking && !mv.seeking then ⟨s, tuEff, true⟩
              else if s.ctxAlive && !cv.seeking && !mv.seeking then ⟨s, tuEff, true⟩
              else ⟨s, tuEff, false⟩
        | _, _ => ⟨s, [], false⟩

/-- `play()`: no-op unless initialized and currently not playing; otherwise
records playing intent, syncs both videos to a common position (threshold
`0.1`s), re-derives the shared clock epoch and emits `"play"`.  The deferred
`Promise.all`/`requestAnimationFrame` re-sync callback is asynchronous and
not part of this synchronous step.  A null video reference inside the `try`
raises, which the `catch` logs and re-emits as an `"error"` event. -/
def play (s : PlayerState) (now : ℚ) : PlayerState × List Effect :=
  if s.isInitialized = false then (s, [])
  else if s.isPlayingFlag then (s, [])
  else
    let s := { s with isPlayingFlag := true }
    match s.colorVideo, s.maskVideo with
    | some cv, some mv =>
      let currentTime0 := jsOrQ cv.currentTime 0
      let currentTime :=
        if cv.paused = false ∨ mv.paused = false then
          min (jsOrQ cv.currentTime 0) (jsOrQ mv.currentTime 0)
        else currentTime0
      let cv :=
        if |cv.currentTime - currentTime| > 1/10 then
          { cv with currentTime := currentTime }
        else cv
      let mv :=
        if |mv.currentTime - currentTime| > 1/10 then
          { mv with currentTime := currentTime }
        else mv
      ({ s with
          colorVideo := some { cv with paused := false }
          maskVideo := some { mv with paused := false }
          sharedClockStart := some (now - currentTime * 1000 / s.playbackRate) },
       [Effect.emit Event.play])
    | _, _ => (s, [Effect.consoleError, Effect.emit (Event.error none)])

/-- `seek(time)`: no-op unless initialized; sets the seeking flag and a 1s
force-clear timer, positions both videos, and re-derives the clock epoch.
The `"seeked"` emission happens in a later asynchronous callback, not here.
A null video reference inside the `try` raises, which the `catch` logs,
clears the seeking flag and re-emits as an `"error"` event. -/
def seek (s : PlayerState) (now time : ℚ) (freshTimer : ℕ) : PlayerState × List Effect :=
  if s.isInitialized = false then (s, [])
  else
    let clearEff : List Effect :=
      if s.seekTimeout.isSome then [Effect.timerCleared] else []
    let s := { s with isSeeking := true, seekTimeout := some freshTimer }
    match s.colorVideo, s.maskVideo with
    | some cv, some mv =>
      ({ s with
          colorVideo := some { cv with currentTime := time }
          maskVideo := some { mv with currentTime := time }
          sharedClockStart := some (now - time * 1000 / s.playbackRate) },
       clearEff)
    | _, _ =>
      ({ s with isSeeking := false },
       clearEff ++ [Effect.consoleError, Effect.emit (Event.error none)])

/-- `destroy()`: pauses, cancels the animation frame and all pending
timers, disconnects the visibility observer, detaches and nulls both video
elements, releases the WebGL resources (guarded by `this.gl`; the resource
handle fields themselves are not nulled by the source), clears the listener
map and resets the readiness/initialization flags.  Each `if (x) { ...;
x = null }` block leaves the field null whether or not it was null before,
so the state updates are unconditional while the release effects are
guarded exactly as in the source. -/
def destroy (s : PlayerState) : PlayerState × List Effect :=
  let p := pause s
  let s1 := p.1
  let eff : List Effect :=
    p.2
    ++ (if s1.animationFrameId.isSome then [Effect.timerCleared] else [])
    ++ (if s1.seekTimeout.isSome then [Effect.timerCleared] else [])
    ++ (if s1.colorVideoLoadTimeout.isSome then [Effect.timerCleared] else [])
    ++ (if s1.maskVideoLoadTimeout.isSome then [Effect.timerCleared] else [])
    ++ (if s1.visibilityObserver then [Effect.observerDisconnected] else [])
    ++ (if s1.colorVideo.isSome then [Effect.clearVideoSrc] else [])
    ++ (if s1.maskVideo.isSome then [Effect.clearVideoSrc] else [])
    ++ (if s1.glAlive then
          (if s1.colorTextureAlive then [Effect.releaseTexture] else [])
          ++ (if s1.alphaTextureAlive then [Effect.releaseTexture] else [])
          ++ (if s1.programAlive then [Effect.releaseProgram] else [])
          ++ (if s1.positionBufferAlive then [Effect.releaseBuffer] else [])
          ++ (if s1.uvBufferAlive then [Effect.releaseBuffer] else [])
        else [])
  ({ s1 with
      animationFrameId := none
      seekTimeout := none
      colorVideoLoadTimeout := none
      maskVideoLoadTimeout := none
      visibilityObserver := false
      colorVideo := none
      maskVideo := none
      glAlive := false
      readyEmitted := false
      readyCallbackCalled := false
      isInitialized := false }, eff)

/-- Availability of the WebGL context kinds the canvas can hand out. -/
structure BackendEnv where
  webgl2 : Bool
  webgl1 : Bool
  expWebgl : Bool
deriving DecidableEq, Repr

/-- Success of shader compilation and program linking inside `initWebGL`. -/
structure GlEnv where
  vertexCompileOk : Bool
  fragmentCompileOk : Bool
  linkOk : Bool
deriving DecidableEq, Repr

/-- `initWebGL()`: no-op without a context; a shader compile or program
link failure silently drops the context and installs the Canvas2D fallback
(no event is emitted); on success the program, geometry buffers and the two
textures are created. -/
def initWebGL (s : PlayerState) (g : GlEnv) : PlayerState :=
  if s.glAlive = false then s
  else if g.vertexCompileOk = false ∨ g.fragmentCompileOk = false then
    { s with glAlive := false, ctxAlive := true }
  else if g.linkOk = false then { s with glAlive := false, ctxAlive := true }
  else
    { s with
        programAlive := true
        positionBufferAlive := true
        uvBufferAlive := true
        colorTextureAlive := true
        alphaTextureAlive := true }

/-- A freshly created video element, configured as `_doInit` does
(muted, loop/volume/rate copied from the player, metadata not yet known). -/
def freshVideo (s : PlayerState) : VideoEl :=
  { currentTime := 0
    duration := 0
    videoWidth := 0
    videoHeight := 0
    readyState := 0
    paused := true
    seeking := false
    volume := s.volume
    playbackRate := s.playbackRate
    loop := s.loop }

/-- The synchronous load-start prefix of `_doInit()`: creates both video
elements, then — only if `useWebGL` was requested — tries the three WebGL
context kinds in order, and otherwise (or when none is available) obtains
the Canvas2D context.  The later asynchronous stages (awaiting readiness,
`validateVideos`, sizing, `start()`) run once the loads settle. -/
def doInitStart (s : PlayerState) (env : BackendEnv) (g : GlEnv) :
    PlayerState × List Effect :=
  let s : PlayerState :=
    { s with colorVideo := some (freshVideo s), maskVideo := some (freshVideo s) }
  let eff : List Effect := [Effect.createVideoElement, Effect.createVideoElement]
  let glNew := if s.useWebGL then env.webgl2 || env.webgl1 || env.expWebgl else s.glAlive
  let s : PlayerState := { s with glAlive := glNew }
  if s.glAlive then (initWebGL s g, eff)
  else ({ s with ctxAlive := true }, eff)

/-- Result of a (synchronous view of a) call to `init()`: the successor
state, the promise the call returns (`some id` identifies an outstanding
`_doInit` run; `none` is the fresh already-resolved promise returned when
the player is already initialized), and the effects produced. -/
structure InitResult where
  state : PlayerState
  retPromise : Option ℕ
  effects : List Effect
deriving DecidableEq, Repr

/-- `init()`: a call while `_initializing` is set returns the stored
`_initPromise` unchanged and runs nothing; a call on an initialized player
warns and returns a fresh resolved promise; otherwise it flags
initialization, stores a fresh promise for `_doInit()` and starts the load
sequence. -/
def init (s : PlayerState) (env : BackendEnv) (g : GlEnv) (fresh : ℕ) : InitResult :=
  if s.initializing then ⟨s, s.initPromise, []⟩
  else if s.isInitialized then ⟨s, none, [Effect.consoleWarn]⟩
  else
    let s : PlayerState := { s with initializing := true, initPromise := some fresh }
    let p := doInitStart s env g
    ⟨p.1, some fresh, p.2⟩

/-- The state right after the constructor ran (defaults of `MagmaPlayer`'s
constructor: volume `1.0`, rate `1.0`, `loop = true`, `repeatTarget = -1`,
`targetFPS = 60` hence `frameInterval = 1000/60`). -/
def initialState : PlayerState :=
  { colorVideo := none
    maskVideo := none
    glAlive := false
    ctxAlive := false
    animationFrameId := none
    seekTimeout := none
    colorVideoLoadTimeout := none
    maskVideoLoadTimeout := none
    visibilityObserver := false
    sharedClockStart := none
    isPlayingFlag := false
    isInitialized := false
    isSeeking := false
    isVisible := true
    lastFrameTime := 0
    frameInterval := 1000 / 60
    lastTimeUpdate := 0
    readyEmitted := false
    readyCallbackCalled := false
    initializing := false
    initPromise := none
    volume := 1
    playbackRate := 1
    loop := true
    repeatCount := 0
    repeatTarget := -1
    strictDuration := false
    useWebGL := true
    durationField := none
    programAlive := false
    colorTextureAlive := false
    alphaTextureAlive := false
    positionBufferAlive := false
    uvBufferAlive := false }

/-- A loaded, playing-capable video element used by concrete witnesses. -/
def sampleVideo : VideoEl :=
  { currentTime := 0
    duration := 10
    videoWidth := 640
    videoHeight := 360
    readyState := 4
    paused := false
    seeking := false
    volume := 1
    playbackRate := 1
    loop := true }

/-!
## Helper lemmas
-/

theorem pause_fst_repeatTarget (s : PlayerState) :
    (pause s).1.repeatTarget = s.repeatTarget := by
  unfold pause
  rcases s.colorVideo with _ | cv <;> rcases hm : s.maskVideo with _ | mv <;>
    simp [hm]

theorem pause_fst_isPlayingFlag (s : PlayerState) :
    (pause s).1.isPlayingFlag = false := by
  unfold pause
  rcases s.colorVideo with _ | cv <;> rcases hm : s.maskVideo with _ | mv <;>
    simp [hm]

theorem setVideosLoop_repeatTarget (s : PlayerState) (b : Bool) :
    (setVideosLoop s b).repeatTarget = s.repeatTarget := rfl

theorem setVideosLoop_isPlayingFlag (s : PlayerState) (b : Bool) :
    (setVideosLoop s b).isPlayingFlag = s.isPlayingFlag := rfl

/-- Every path of `renderLoop` that could render a frame is behind the
`!this._isPlaying` early return, and no tick ever sets `_isPlaying`. -/
theorem renderLoop_not_playing (s : PlayerState) (e : TickEnv)
    (h : s.isPlayingFlag = false) :
    (renderLoop s e).rendered = false ∧
    (renderLoop s e).state.isPlayingFlag = false := by
  unfold renderLoop
  by_cases h1 : e.canvasConnected = false
  · simp [h1, h]
  · by_cases h2 : e.now - s.lastFrameTime < s.frameInterval
    · simp [h1, h2, h]
    · simp [h1, h2, h]

theorem initWebGL_initializing (s : PlayerState) (g : GlEnv) :
    (initWebGL s g).initializing = s.initializing := by
  unfold initWebGL
  split_ifs <;> rfl

theorem initWebGL_initPromise (s : PlayerState) (g : GlEnv) :
    (initWebGL s g).initPromise = s.initPromise := by
  unfold initWebGL
  split_ifs <;> rfl

theorem doInitStart_initializing (s : PlayerState) (env : BackendEnv) (g : GlEnv) :
    (doInitStart s env g).1.initializing = s.initializing := by
  simp [doInitStart, apply_ite (fun p : PlayerState × List Effect => p.1.initializing),
    initWebGL_initializing]

theorem doInitStart_initPromise (s : PlayerState) (env : BackendEnv) (g : GlEnv) :
    (doInitStart s env g).1.initPromise = s.initPromise := by
  simp [doInitStart, apply_ite (fun p : PlayerState × List Effect => p.1.initPromise),
    initWebGL_initPromise]

theorem doInitStart_effects (s : PlayerState) (env : BackendEnv) (g : GlEnv) :
    (doInitStart s env g).2 = [Effect.createVideoElement, Effect.createVideoElement] := by
  simp [doInitStart, apply_ite (fun p : PlayerState × List Effect => p.2)]

/-!
## Claim theorems
-/

/-- Claim C10: for every rational `v`, `setVolume(v)` silently clamps the
stored volume to `[0, 1]`, so that `getVolume()` afterwards returns
`min(1, max(0, v))`; out-of-range volume input is never rejected and never
stored unclamped. -/
theorem setVolume_clamps (s : PlayerState) (v : ℚ) :
    getVolume (setVolume s v) = min 1 (max 0 v) ∧
    0 ≤ getVolume (setVolume s v) ∧ getVolume (setVolume s v) ≤ 1 := by
  have h : getVolume (setVolume s v) = max 0 (min 1 v) := by
    simp [getVolume, setVolume]
  have hdist : max 0 (min 1 v) = min 1 (max 0 v) := by
    rw [max_min_distrib_left]
    norm_num
  refine ⟨by rw [h, hdist], ?_, ?_⟩
  · rw [h]; exact le_max_left _ _
  · rw [h]; exact max_le (by norm_num) (min_le_left _ _)

/-- Claim C6: for every rational input `r`, `setPlaybackRate(r)` silently
clamps the stored rate to `[0.25, 4.0]`; in particular
`setPlaybackRate(10)` then `getPlaybackRate()` gives `4.0`, and
`setPlaybackRate(0.01)` gives `0.25`. -/
theorem setPlaybackRate_clamps (s : PlayerState) (now r : ℚ) :
    getPlaybackRate (setPlaybackRate s now r) = max (1/4) (min 4 r) ∧
    1/4 ≤ getPlaybackRate (setPlaybackRate s now r) ∧
    getPlaybackRate (setPlaybackRate s now r) ≤ 4 ∧
    getPlaybackRate (setPlaybackRate s now 10) = 4 ∧
    getPlaybackRate (setPlaybackRate s now (1/100)) = 1/4 := by
  have key : ∀ x : ℚ, getPlaybackRate (setPlaybackRate s now x) = max (1/4) (min 4 x) := by
    intro x
    simp [setPlaybackRate, getPlaybackRate,
      apply_ite (fun st : PlayerState => st.playbackRate)]
  refine ⟨key r, ?_, ?_, ?_, ?_⟩
  · rw [key r]; exact le_max_left _ _
  · rw [key r]; exact max_le (by norm_num) (min_le_left _ _)
  · rw [key 10]; norm_num [min_def, max_def]
  · rw [key (1/100)]; norm_num [min_def, max_def]

/-- Claim C7: for every `n` in `{-1, 0, 1, 5}`, `setRepeatCount(n)` followed
by `getRepeatCount()` returns exactly `n`. -/
theorem repeatCount_roundTrip (s : PlayerState) :
    getRepeatCount (setRepeatCount s (-1)).1 = -1 ∧
    getRepeatCount (setRepeatCount s 0).1 = 0 ∧
    getRepeatCount (setRepeatCount s 1).1 = 1 ∧
    getRepeatCount (setRepeatCount s 5).1 = 5 := by
  refine ⟨?_, ?_, ?_, ?_⟩ <;>
    by_cases h : s.isPlayingFlag = true <;>
      norm_num [setRepeatCount, getRepeatCount, jsOrQ, setVideosLoop_repeatTarget,
        pause_fst_repeatTarget, h]

/-- Claim C3: for every tick, the computed target position is never
negative (floored at 0); and with the infinite repeat policy
(`repeatTarget = -1`), a finite positive duration and a tick at or after
the clock epoch, the target position is exactly the elapsed clock time
times the rate, taken modulo the video duration. -/
theorem targetPosition_nonneg_and_infinite_mod (now start rate d : ℚ)
    (dur : Option ℚ) (rt rc : ℤ) :
    (∀ t rc', computeTargetTime (elapsedSeconds now start rate) dur rt rc =
        TickOutcome.frame t rc' → 0 ≤ t) ∧
    (dur = some d → 0 < d → start ≤ now → 0 ≤ rate →
      rt = -1 →
      computeTargetTime (elapsedSeconds now start rate) dur rt rc =
        TickOutcome.frame
          (elapsedSeconds now start rate - d * ⌊elapsedSeconds now start rate / d⌋)
          rc) := by
  constructor
  · intro t rc' hfr
    rcases dur with _ | d0 <;> simp only [computeTargetTime] at hfr
    · injection hfr with h1 h2
      rw [← h1]
      exact le_max_left _ _
    · split_ifs at hfr <;>
        (injection hfr with h1 h2; rw [← h1]; exact le_max_left _ _)
  · intro hd hdpos hns hrate hrt
    subst hd
    subst hrt
    have hE : 0 ≤ elapsedSeconds now start rate := by
      unfold elapsedSeconds
      exact mul_nonneg (div_nonneg (sub_nonneg.2 hns) (by norm_num)) hrate
    set E := elapsedSeconds now start rate with hEdef
    have htr : truncQ (E / d) = ⌊E / d⌋ := if_pos (div_nonneg hE hdpos.le)
    have hjs : jsRem E d = E - d * ⌊E / d⌋ := by rw [jsRem, htr]
    have hfr : E - d * ⌊E / d⌋ = d * Int.fract (E / d) := by
      rw [Int.fract, mul_sub, mul_div_cancel₀ E hdpos.ne']
    have hnn : 0 ≤ jsRem E d := by
      rw [hjs, hfr]
      exact mul_nonneg hdpos.le (Int.fract_nonneg _)
    simp only [computeTargetTime, if_pos hdpos, if_pos rfl]
    rw [max_eq_right hnn, hjs]
    exact if_pos trivial

/-- Witness for C3 at `now = 25000`ms, epoch `0`, rate `1`, duration `10`s:
elapsed is `25`s and the infinite-repeat target position is `25 mod 10 = 5`,
which is nonnegative. -/
theorem targetPosition_nonneg_and_infinite_mod_witness :
    computeTargetTime (elapsedSeconds 25000 0 1) (some 10) (-1) 0 =
      TickOutcome.frame 5 0 ∧ (0 : ℚ) ≤ 5 := by
  have h := (targetPosition_nonneg_and_infinite_mod 25000 0 1 10 (some 10) (-1) 0).2
    rfl (by norm_num) (by norm_num) (by norm_num) rfl
  have h5 : computeTargetTime (elapsedSeconds 25000 0 1) (some 10) (-1) 0 =
      TickOutcome.frame 5 0 := by
    rw [h]
    norm_num [elapsedSeconds]
  exact ⟨h5, (targetPosition_nonneg_and_infinite_mod 25000 0 1 10 (some 10) (-1) 0).1 5 0 h5⟩

/-- Claim C4: a second `init()` call while a previous initialization is in
flight starts no second load sequence (no effects at all, in particular no
new media elements) and returns the same outstanding promise, leaving the
state untouched. -/
theorem init_concurrent_shares_outcome (s : PlayerState) (env env' : BackendEnv)
    (g g' : GlEnv) (f f' : ℕ)
    (h1 : s.initializing = false) (h2 : s.isInitialized = false) :
    (init s env g f).retPromise = some f ∧
    (init s env g f).effects = [Effect.createVideoElement, Effect.createVideoElement] ∧
    init (init s env g f).state env' g' f' = ⟨(init s env g f).state, some f, []⟩ := by
  have hstate : (init s env g f).state =
      (doInitStart { s with initializing := true, initPromise := some f } env g).1 := by
    simp [init, h1, h2]
  have hini : (init s env g f).state.initializing = true := by
    rw [hstate, doInitStart_initializing]
  have hpr : (init s env g f).state.initPromise = some f := by
    rw [hstate, doInitStart_initPromise]
  refine ⟨?_, ?_, ?_⟩
  · simp [init, h1, h2]
  · simp [init, h1, h2, doInitStart_effects]
  · set X := (init s env g f).state with hX
    simp [init, hini, hpr]

/-- Witness for C4 on a freshly constructed player. -/
theorem init_concurrent_shares_outcome_witness :
    (init initialState ⟨true, true, true⟩ ⟨true, true, true⟩ 7).retPromise = some 7 ∧
    (init initialState ⟨true, true, true⟩ ⟨true, true, true⟩ 7).effects =
      [Effect.createVideoElement, Effect.createVideoElement] ∧
    init (init initialState ⟨true, true, true⟩ ⟨true, true, true⟩ 7).state
        ⟨true, true, true⟩ ⟨true, true, true⟩ 8 =
      ⟨(init initialState ⟨true, true, true⟩ ⟨true, true, true⟩ 7).state, some 7, []⟩ :=
  init_concurrent_shares_outcome initialState ⟨true, true, true⟩ ⟨true, true, true⟩
    ⟨true, true, true⟩ ⟨true, true, true⟩ 7 8 rfl rfl

theorem pause_effects_of_videos (s : PlayerState) (cv mv : VideoEl)
    (hcv : s.colorVideo = some cv) (hmv : s.maskVideo = some mv) :
    (pause s).2 = [Effect.emit Event.pause] := by
  simp [pause, hcv, hmv]

/-- Claim C8: `setRepeatCount(0)` while playing pauses immediately, fires
exactly the `"pause"` event, sets the repeat target to `0`, and afterwards
no `renderLoop` tick renders a frame (and the flag stays cleared, so this
persists until a state change such as a new repeat count and `play()`). -/
theorem setRepeatCountZero_stops (s : PlayerState) (cv mv : VideoEl) (e : TickEnv)
    (hp : s.isPlayingFlag = true) (hcv : s.colorVideo = some cv)
    (hmv : s.maskVideo = some mv) :
    (setRepeatCount s 0).1.isPlayingFlag = false ∧
    (setRepeatCount s 0).1.repeatTarget = 0 ∧
    (setRepeatCount s 0).2 = [Effect.emit Event.pause] ∧
    (renderLoop (setRepeatCount s 0).1 e).rendered = false ∧
    (renderLoop (setRepeatCount s 0).1 e).state.isPlayingFlag = false := by
  have hflag : (setRepeatCount s 0).1.isPlayingFlag = false := by
    norm_num [setRepeatCount, jsOrQ, setVideosLoop_isPlayingFlag, hp,
      pause_fst_isPlayingFlag]
  have hrt : (setRepeatCount s 0).1.repeatTarget = 0 := by
    norm_num [setRepeatCount, jsOrQ, setVideosLoop_repeatTarget, hp,
      pause_fst_repeatTarget]
  have heff : (setRepeatCount s 0).2 = [Effect.emit Event.pause] := by
    norm_num [setRepeatCount, jsOrQ, hp]
    exact pause_effects_of_videos _ cv mv hcv hmv
  have hrl := renderLoop_not_playing (setRepeatCount s 0).1 e hflag
  exact ⟨hflag, hrt, heff, hrl.1, hrl.2⟩

/-- Witness for C8: a playing, initialized player with both videos loaded. -/
theorem setRepeatCountZero_stops_witness :
    (setRepeatCount
        { initialState with
            colorVideo := some sampleVideo
            maskVideo := some sampleVideo
            isInitialized := true
            isPlayingFlag := true } 0).1.isPlayingFlag = false ∧
    (setRepeatCount
        { initialState with
            colorVideo := some sampleVideo
            maskVideo := some sampleVideo
            isInitialized := true
            isPlayingFlag := true } 0).1.repeatTarget = 0 ∧
    (setRepeatCount
        { initialState with
            colorVideo := some sampleVideo
            maskVideo := some sampleVideo
            isInitialized := true
            isPlayingFlag := true } 0).2 = [Effect.emit Event.pause] ∧
    (renderLoop
        (setRepeatCount
            { initialState with
                colorVideo := some sampleVideo
                maskVideo := some sampleVideo
                isInitialized := true
                isPlayingFlag := true } 0).1 ⟨100, true, 640, 1⟩).rendered = false ∧
    (renderLoop
        (setRepeatCount
            { initialState with
                colorVideo := some sampleVideo
                maskVideo := some sampleVideo
                isInitialized := true
                isPlayingFlag := true } 0).1
          ⟨100, true, 640, 1⟩).state.isPlayingFlag = false :=
  setRepeatCountZero_stops _ sampleVideo sampleVideo ⟨100, true, 640, 1⟩ rfl rfl rfl

/-- Claim C9: `destroy()` is idempotent — a second `destroy()` on an
already-destroyed player changes nothing, emits no event, and releases no
resource (its only effect is the console log from the caught `pause()`
TypeError); and the destroyed instance is inert: `play`, `pause` and `seek`
leave the state unchanged and emit nothing. -/
theorem destroy_idempotent_inert (s : PlayerState) (now t : ℚ) (f : ℕ) :
    destroy (destroy s).1 = ((destroy s).1, [Effect.consoleError]) ∧
    play (destroy s).1 now = ((destroy s).1, []) ∧
    pause (destroy s).1 = ((destroy s).1, [Effect.consoleError]) ∧
    seek (destroy s).1 now t f = ((destroy s).1, []) := by
  obtain ⟨cvO, mvO, gl, ctx, afid, stid, cltid, mltid, vob, scs, ipf, ii, isk, iv,
    lft, fi, ltu, re, rcc, ini, ipr, vol, pr, lp, rc, rt, sd, uw, df, pa, cta,
    ata, pba, uba⟩ := s
  rcases cvO with _ | cv <;> rcases mvO with _ | mv <;>
    simp [destroy, pause, play, seek]

/-- C1 (amended): for a readiness validation with matching nonzero
dimensions, a duration difference above `0.1`s and `strictDuration = false`,
validation succeeds (nothing is thrown), the mismatch produces only a
console warning — no `warning` (or any) event is emitted — the internal
`this.duration` field is pinned to the shorter duration, and `getDuration()`
reports the color video's duration (not necessarily the shorter one). -/
theorem durationMismatch_nonstrict_console_only (s : PlayerState) (cv mv : VideoEl)
    (hcv : s.colorVideo = some cv) (hmv : s.maskVideo = some mv)
    (hw : cv.videoWidth = mv.videoWidth) (hh : cv.videoHeight = mv.videoHeight)
    (hw0 : cv.videoWidth ≠ 0) (hh0 : cv.videoHeight ≠ 0)
    (hdiff : |jsOrQ cv.duration 0 - jsOrQ mv.duration 0| > 1/10)
    (hstrict : s.strictDuration = false) (hinit : s.isInitialized = true) :
    (validateVideos s).thrown = none ∧
    (validateVideos s).effects = [Effect.consoleWarn] ∧
    (validateVideos s).state.durationField =
      some (min (jsOrQ cv.duration 0) (jsOrQ mv.duration 0)) ∧
    getDuration (validateVideos s).state = jsOrQ cv.duration 0 := by
  have hmw0 : mv.videoWidth ≠ 0 := hw ▸ hw0
  have hmh0 : mv.videoHeight ≠ 0 := hh ▸ hh0
  have hdiff' : (10 : ℚ)⁻¹ < |jsOrQ cv.duration 0 - jsOrQ mv.duration 0| := by
    rw [← one_div]
    exact hdiff
  simp [validateVideos, hcv, hmv, hw, hh, hdiff', hstrict, hw0, hh0, hmw0, hmh0,
    getDuration, hinit]

/-- The color/mask pair of the C1 scenario: color duration `10.3`s, mask
duration `10.0`s (difference `0.3 > 0.1`), identical dimensions. -/
def c1ColorVideo : VideoEl := { sampleVideo with duration := 103/10 }

/-- Player state for the C1 scenario. -/
def c1State : PlayerState :=
  { initialState with
      colorVideo := some c1ColorVideo
      maskVideo := some sampleVideo
      isInitialized := true }

/-- Witness for the amended C1 on the concrete `10.3`s/`10.0`s pair. -/
theorem durationMismatch_nonstrict_console_only_witness :
    (validateVideos c1State).thrown = none ∧
    (validateVideos c1State).effects = [Effect.consoleWarn] ∧
    (validateVideos c1State).state.durationField = some 10 ∧
    getDuration (validateVideos c1State).state = 103/10 := by
  have h := durationMismatch_nonstrict_console_only c1State c1ColorVideo sampleVideo
    rfl rfl rfl rfl (by decide) (by decide)
    (by norm_num [c1ColorVideo, sampleVideo, jsOrQ, abs_of_nonneg]) rfl rfl
  refine ⟨h.1, h.2.1, ?_, ?_⟩
  · rw [h.2.2.1]
    norm_num [c1ColorVideo, sampleVideo, jsOrQ, min_def]
  · rw [h.2.2.2]
    norm_num [c1ColorVideo, jsOrQ]

/-- Counterexample to C1 as stated: on the mismatched pair (`10.3`s color,
`10.0`s mask, `strictDuration = false`) initialization validation emits no
`warning` event at all (zero, not one), and `getDuration()` reports
`10.3`s — the color duration — which is not the shorter of the two
(`10.0`s). -/
theorem durationMismatch_no_warning_event :
    (validateVideos c1State).thrown = none ∧
    (validateVideos c1State).effects.any isWarningEmit = false ∧
    min (jsOrQ c1ColorVideo.duration 0) (jsOrQ sampleVideo.duration 0) = 10 ∧
    getDuration (validateVideos c1State).state = 103/10 ∧ ((103 : ℚ)/10 ≠ 10) := by
  norm_num [validateVideos, c1State, c1ColorVideo, sampleVideo, initialState, jsOrQ,
    getDuration, isWarningEmit, min_def, abs_of_nonneg]

/-- C2 (amended): a natural-dimension mismatch at readiness validation is
non-fatal (nothing is thrown, the state — and so both playing sources — is
untouched), but the notification is delivered via the `error` event, not
the `warning` event. -/
theorem dimensionMismatch_error_event (s : PlayerState) (cv mv : VideoEl)
    (hcv : s.colorVideo = some cv) (hmv : s.maskVideo = some mv)
    (hdim : cv.videoWidth ≠ mv.videoWidth ∨ cv.videoHeight ≠ mv.videoHeight)
    (hw0 : cv.videoWidth ≠ 0) (hh0 : cv.videoHeight ≠ 0)
    (hmw0 : mv.videoWidth ≠ 0) (hmh0 : mv.videoHeight ≠ 0)
    (hdur : |jsOrQ cv.duration 0 - jsOrQ mv.duration 0| ≤ 1/10) :
    (validateVideos s).thrown = none ∧
    (validateVideos s).state = s ∧
    (validateVideos s).effects =
      [Effect.consoleWarn, Effect.emit (Event.error (some ErrorCode.invalidInput))] ∧
    (validateVideos s).effects.any isWarningEmit = false := by
  have hnd : ¬((10 : ℚ)⁻¹ < |jsOrQ cv.duration 0 - jsOrQ mv.duration 0|) := by
    rw [inv_eq_one_div]
    exact not_lt.2 hdur
  simp [validateVideos, hcv, hmv, hdim, hnd, hw0, hh0, hmw0, hmh0, isWarningEmit]

/-- The mask video of the C2 scenario: same as the color video except for a
different natural width. -/
def c2MaskVideo : VideoEl := { sampleVideo with videoWidth := 320 }

/-- Player state for the C2 scenario. -/
def c2State : PlayerState :=
  { initialState with
      colorVideo := some sampleVideo
      maskVideo := some c2MaskVideo
      isInitialized := true }

/-- Witness for the amended C2 on a concrete `640×360` vs `320×360` pair. -/
theorem dimensionMismatch_error_event_witness :
    (validateVideos c2State).thrown = none ∧
    (validateVideos c2State).state = c2State ∧
    (validateVideos c2State).effects =
      [Effect.consoleWarn, Effect.emit (Event.error (some ErrorCode.invalidInput))] ∧
    (validateVideos c2State).effects.any isWarningEmit = false :=
  dimensionMismatch_error_event c2State sampleVideo c2MaskVideo rfl rfl
    (Or.inl (by decide)) (by decide) (by decide) (by decide) (by decide)
    (by norm_num [c2MaskVideo, sampleVideo, jsOrQ])

/-- Counterexample to C2 as stated: on a concrete dimension mismatch the
validation is indeed non-fatal, but the notification goes out as an `error`
event and no `warning` event is emitted. -/
theorem dimensionMismatch_not_warning :
    (validateVideos c2State).thrown = none ∧
    (validateVideos c2State).effects.any isErrorEmit = true ∧
    (validateVideos c2State).effects.any isWarningEmit = false := by
  norm_num [validateVideos, c2State, c2MaskVideo, sampleVideo, initialState, jsOrQ,
    isErrorEmit, isWarningEmit]

/-- C5 (amended): when GPU use was requested (`useWebGL = true`) but no
WebGL context of any kind is available, the player silently installs the
Canvas2D fallback: the WebGL handle stays null, the 2D context is obtained,
and no event at all — in particular no `WebGLInitFailed` error or warning —
is emitted (the `WEBGL_INIT_FAILED` code exists but is never used). -/
theorem webglUnavailable_silent_fallback (s : PlayerState) (env : BackendEnv)
    (g : GlEnv) (hreq : s.useWebGL = true) (h2 : env.webgl2 = false)
    (h1 : env.webgl1 = false) (h0 : env.expWebgl = false) :
    (doInitStart s env g).1.glAlive = false ∧
    (doInitStart s env g).1.ctxAlive = true ∧
    (doInitStart s env g).2.any isEmitEffect = false := by
  refine ⟨?_, ?_, ?_⟩
  · simp [doInitStart, hreq, h2, h1, h0,
      apply_ite (fun p : PlayerState × List Effect => p.1.glAlive)]
  · simp [doInitStart, hreq, h2, h1, h0,
      apply_ite (fun p : PlayerState × List Effect => p.1.ctxAlive)]
  · rw [doInitStart_effects]
    decide

/-- Witness for the amended C5 on a fresh player with every WebGL context
kind unavailable. -/
theorem webglUnavailable_silent_fallback_witness :
    (doInitStart initialState ⟨false, false, false⟩ ⟨true, true, true⟩).1.glAlive = false ∧
    (doInitStart initialState ⟨false, false, false⟩ ⟨true, true, true⟩).1.ctxAlive = true ∧
    (doInitStart initialState ⟨false, false, false⟩
        ⟨true, true, true⟩).2.any isEmitEffect = false :=
  webglUnavailable_silent_fallback initialState ⟨false, false, false⟩ ⟨true, true, true⟩
    rfl rfl rfl rfl

/-- Counterexample to C5 as stated: with GPU requested and unavailable, the
load-start emits nothing whatsoever (so no `WebGLInitFailed` error or
warning reaches the caller), while the Canvas2D fallback is installed. -/
theorem webglUnavailable_no_report :
    (doInitStart initialState ⟨false, false, false⟩
        ⟨true, true, true⟩).2.any isEmitEffect = false ∧
    (doInitStart initialState ⟨false, false, false⟩ ⟨true, true, true⟩).1.ctxAlive = true ∧
    (doInitStart initialState ⟨false, false, false⟩ ⟨true, true, true⟩).1.glAlive = false := by
  decide

end Magma
